import Mathlib

/-!
Shallow embedding of the test-result tooling of the house-price-predictor
repository (src/test_analyzer.py, src/quick_status.py, src/run_tests.py,
src/tests/conftest.py), together with theorems settling the frozen claims
about its specification.

Modelling conventions:
- XML documents are the inductive tree `XElem` (tag, attributes, text,
  children), mirroring the xml.etree.ElementTree view of a parsed file.
- Python `int(...)` / `float(...)` applied to attribute strings are modelled
  by `pyInt` / `pyFloat`, which parse optionally signed decimal literals and
  return `none` where Python would raise ValueError.
- Code that can raise is modelled in the `Option` monad: `none` is the
  exception path (caught by the enclosing try/except in the source).
- Python floats are modelled as exact rationals (the claims under study are
  about guards, ordering and defaulting, not rounding).
-/

/-- An XML element as seen through xml.etree.ElementTree: tag name,
attribute list, optional text content, and child elements in document
order. -/
inductive XElem : Type where
  | mk : String → List (String × String) → Option String → List XElem → XElem

def XElem.tag : XElem → String
  | .mk t _ _ _ => t

def XElem.attrs : XElem → List (String × String)
  | .mk _ a _ _ => a

def XElem.text : XElem → Option String
  | .mk _ _ x _ => x

def XElem.children : XElem → List XElem
  | .mk _ _ _ cs => cs

mutual
/-- All proper descendants of an element, in document order (each child
followed by its own descendants).  This is the search space of ElementTree
queries whose path starts with the descendant prefix dot-slash-slash. -/
def XElem.descendants : XElem → List XElem
  | .mk _ _ _ cs => XElem.descendantsList cs

def XElem.descendantsList : List XElem → List XElem
  | [] => []
  | c :: cs => c :: XElem.descendants c ++ XElem.descendantsList cs
end

/-- ElementTree `element.find(tagname)`: first direct child with the given
tag, if any. -/
def XElem.findChild (e : XElem) (t : String) : Option XElem :=
  e.children.find? (fun c => c.tag == t)

/-- ElementTree `root.find` with the descendant path for tag `testsuite`:
first descendant element (document order) tagged `testsuite`. -/
def findTestsuite (root : XElem) : Option XElem :=
  root.descendants.find? (fun e => e.tag == "testsuite")

/-- Digits accumulator for decimal parsing. -/
def parseDigitsAux : List Char → Nat → Option Nat
  | [], acc => some acc
  | c :: cs, acc =>
      if c.isDigit then parseDigitsAux cs (acc * 10 + (c.toNat - 48)) else none

/-- A nonempty all-digit string to a natural number; `none` otherwise. -/
def parseDigits (cs : List Char) : Option Nat :=
  if cs.isEmpty then none else parseDigitsAux cs 0

/-- Python `int(s)` on decimal literals: optional sign then digits; `none`
models the ValueError raised on anything else. -/
def pyInt (s : String) : Option Int :=
  match s.toList with
  | [] => none
  | c :: cs =>
      if c = '-' then (parseDigits cs).map (fun n => -(n : Int))
      else if c = '+' then (parseDigits cs).map (fun n => (n : Int))
      else (parseDigits (c :: cs)).map (fun n => (n : Int))

/-- Split a character list at the first dot, if any. -/
def splitDot : List Char → List Char × Option (List Char)
  | [] => ([], none)
  | c :: cs =>
      if c = '.' then ([], some cs)
      else
        let r := splitDot cs
        (c :: r.1, r.2)

/-- Unsigned decimal literal (`"12"`, `"12.5"`, `"12."`, `".5"`) to an exact
rational; `none` models ValueError. -/
def pyFloatCore (cs : List Char) : Option ℚ :=
  match splitDot cs with
  | (intPart, none) => (parseDigits intPart).map (fun n => (n : ℚ))
  | (intPart, some fracPart) =>
      if intPart.isEmpty && fracPart.isEmpty then none
      else
        let ip := if intPart.isEmpty then some 0 else parseDigits intPart
        let fp := if fracPart.isEmpty then some 0 else parseDigits fracPart
        match ip, fp with
        | some i, some f =>
            some ((i : ℚ) + (f : ℚ) / ((10 : ℚ) ^ fracPart.length))
        | _, _ => none

/-- Python `float(s)` on decimal literals: optional sign then `pyFloatCore`. -/
def pyFloat (s : String) : Option ℚ :=
  match s.toList with
  | [] => none
  | c :: cs =>
      if c = '-' then (pyFloatCore cs).map (fun q => -q)
      else if c = '+' then pyFloatCore cs
      else pyFloatCore (c :: cs)

/-- `int(element.get(key, 0))`: attribute lookup defaulting to the integer 0
when the attribute is absent; a present attribute is parsed with `pyInt`. -/
def getIntAttrD (e : XElem) (k : String) : Option Int :=
  match e.attrs.lookup k with
  | some s => pyInt s
  | none => some 0

/-- `float(element.get(key, 0))`: attribute lookup defaulting to 0.0 when the
attribute is absent; a present attribute is parsed with `pyFloat`. -/
def getFloatAttrD (e : XElem) (k : String) : Option ℚ :=
  match e.attrs.lookup k with
  | some s => pyFloat s
  | none => some 0

/-- `element.get(key, default)` for string-valued reads. -/
def getStrAttrD (e : XElem) (k d : String) : String :=
  (e.attrs.lookup k).getD d

/-- Status assigned to a testcase by TestResultsAnalyzer.parse_junit_xml. -/
inductive Status : Type where
  | passed
  | failed
  | error
  | skipped
deriving DecidableEq, Repr

/-- One parsed testcase (the case_data dict of parse_junit_xml).  `detail`
is present exactly when a failure/error/skipped child matched, and holds
that child's text. -/
structure CaseData : Type where
  classname : String
  name : String
  time : ℚ
  status : Status
  detail : Option (Option String)
deriving DecidableEq, Repr

/-- The status classification chain of parse_junit_xml (test_analyzer.py
lines 63-75): status starts as passed and the first matching direct child
among failure, error, skipped overrides it, together with that child's
text. -/
def caseStatus (tc : XElem) : Status × Option (Option String) :=
  match tc.findChild "failure" with
  | some f => (Status.failed, some f.text)
  | none =>
      match tc.findChild "error" with
      | some er => (Status.error, some er.text)
      | none =>
          match tc.findChild "skipped" with
          | some sk => (Status.skipped, some sk.text)
          | none => (Status.passed, none)

/-- Parse one testcase element (test_analyzer.py lines 58-77).  The only
fallible step is `float` on a present time attribute. -/
def parseTestcase (tc : XElem) : Option CaseData := do
  let t ← getFloatAttrD tc "time"
  pure { classname := getStrAttrD tc "classname" ""
         name := getStrAttrD tc "name" ""
         time := t
         status := (caseStatus tc).1
         detail := (caseStatus tc).2 }

/-- One parsed suite (the suite_data dict of parse_junit_xml). -/
structure SuiteData : Type where
  name : String
  tests : Int
  failures : Int
  errors : Int
  skipped : Int
  time : ℚ
  timestamp : String
  hostname : String
  testcases : List CaseData
deriving DecidableEq, Repr

/-- Suite element selection of test_analyzer.py lines 41-43: the first
descendant tagged `testsuite` if one exists, otherwise the document root
itself (explicit `is None` check in the source). -/
def analyzerSelectSuite (root : XElem) : XElem :=
  match findTestsuite root with
  | some ts => ts
  | none => root

/-- Suite element selection of quick_status.py line 41, which is written
with Python `or`: the found element is used only when it is truthy, and an
ElementTree element with no children is falsy, so a childless nested
testsuite falls back to the document root. -/
def quickSelectSuite (root : XElem) : XElem :=
  match findTestsuite root with
  | some ts => if ts.children.isEmpty then root else ts
  | none => root

/-- TestResultsAnalyzer.parse_junit_xml on an already-parsed document tree.
`none` is the exception path of the enclosing try/except (the caller then
sees an empty dict). -/
def parse_junit_xml (root : XElem) : Option SuiteData := do
  let ts := analyzerSelectSuite root
  let tests ← getIntAttrD ts "tests"
  let failures ← getIntAttrD ts "failures"
  let errors ← getIntAttrD ts "errors"
  let skipped ← getIntAttrD ts "skipped"
  let time ← getFloatAttrD ts "time"
  let tcs ← (ts.descendants.filter (fun e => e.tag == "testcase")).mapM parseTestcase
  pure { name := getStrAttrD ts "name" "Unknown"
         tests := tests
         failures := failures
         errors := errors
         skipped := skipped
         time := time
         timestamp := getStrAttrD ts "timestamp" ""
         hostname := getStrAttrD ts "hostname" ""
         testcases := tcs }

/-- The per-file counters read by quick_status.quick_check (lines 43-46):
tests, failures, errors, time.  quick_check does not read `skipped`. -/
structure QuickCounts : Type where
  tests : Int
  failures : Int
  errors : Int
  time : ℚ
deriving DecidableEq, Repr

/-- One iteration of the quick_check file loop (quick_status.py lines
38-46); `none` is the per-file exception path, which the loop catches and
skips. -/
def quickParseFile (root : XElem) : Option QuickCounts := do
  let ts := quickSelectSuite root
  let tests ← getIntAttrD ts "tests"
  let failures ← getIntAttrD ts "failures"
  let errors ← getIntAttrD ts "errors"
  let time ← getFloatAttrD ts "time"
  pure { tests := tests, failures := failures, errors := errors, time := time }

/-- The results mapping built by load_all_results: file category name to
parsed suite; `none` stands for the empty dict returned after a parse
error. -/
abbrev Results := List (String × Option SuiteData)

/-- `suite.get(key, 0)` reads on a possibly-empty suite dict. -/
def suiteGetTests : Option SuiteData → Int
  | none => 0
  | some s => s.tests

def suiteGetFailures : Option SuiteData → Int
  | none => 0
  | some s => s.failures

def suiteGetErrors : Option SuiteData → Int
  | none => 0
  | some s => s.errors

def suiteGetSkipped : Option SuiteData → Int
  | none => 0
  | some s => s.skipped

def suiteGetTime : Option SuiteData → ℚ
  | none => 0
  | some s => s.time

/-- Sum of `suite.get('tests', 0)` over results.values()
(test_analyzer.py line 110 and line 246). -/
def totalTests (rs : Results) : Int :=
  (rs.map (fun p => suiteGetTests p.2)).sum

def totalFailures (rs : Results) : Int :=
  (rs.map (fun p => suiteGetFailures p.2)).sum

def totalErrors (rs : Results) : Int :=
  (rs.map (fun p => suiteGetErrors p.2)).sum

def totalSkipped (rs : Results) : Int :=
  (rs.map (fun p => suiteGetSkipped p.2)).sum

def totalTime (rs : Results) : ℚ :=
  (rs.map (fun p => suiteGetTime p.2)).sum

/-- `total_passed = total_tests - total_failures - total_errors -
total_skipped` (test_analyzer.py line 114 and line 250): a plain integer
subtraction, with no clamping of negative values. -/
def totalPassed (rs : Results) : Int :=
  totalTests rs - totalFailures rs - totalErrors rs - totalSkipped rs

/-- The overall success rate displayed by generate_summary_report
(test_analyzer.py line 120): the conditional f-string computes
`total_passed/total_tests*100` only when `total_tests > 0`; otherwise the
alternative string carries no rate at all, modelled as `none`. -/
def summaryOverallRate (rs : Results) : Option ℚ :=
  if 0 < totalTests rs then
    some ((totalPassed rs : ℚ) / (totalTests rs : ℚ) * 100)
  else none

/-- Python division, which raises ZeroDivisionError on a zero divisor. -/
def pyDiv (a b : ℚ) : Option ℚ :=
  if b = 0 then none else some (a / b)

/-- The passed-percentage of generate_html_report (test_analyzer.py line
269): `total_passed/total_tests*100` with no guard on `total_tests`, so a
zero total is a ZeroDivisionError (`none`). -/
def htmlPassedRate (rs : Results) : Option ℚ :=
  (pyDiv (totalPassed rs) (totalTests rs)).map (fun q => q * 100)

/-- Totals accumulated by the quick_check file loop (quick_status.py lines
29-51): files whose parse raises are caught and skipped. -/
def quickTotals (files : List XElem) : QuickCounts :=
  files.foldl
    (fun acc root =>
      match quickParseFile root with
      | some c =>
          { tests := acc.tests + c.tests
            failures := acc.failures + c.failures
            errors := acc.errors + c.errors
            time := acc.time + c.time }
      | none => acc)
    { tests := 0, failures := 0, errors := 0, time := 0 }

/-- `passed = total_tests - total_failures - total_errors`
(quick_status.py line 70; quick_check has no skipped counter). -/
def quickPassed (files : List XElem) : Int :=
  (quickTotals files).tests - (quickTotals files).failures -
    (quickTotals files).errors

/-- `success_rate = (passed / total_tests * 100) if total_tests > 0 else 0`
(quick_status.py line 71). -/
def quickSuccessRate (files : List XElem) : ℚ :=
  if 0 < (quickTotals files).tests then
    (quickPassed files : ℚ) / ((quickTotals files).tests : ℚ) * 100
  else 0

/-- Exit status of quick_check (quick_status.py lines 73-79). -/
def quickExitCode (files : List XElem) : Int :=
  if (quickTotals files).failures = 0 && (quickTotals files).errors = 0
  then 0 else 1

/-- The flattened all_testcases list of generate_summary_report
(test_analyzer.py lines 162-167): testcases of every non-empty suite, in
results order.  (The source also annotates each case with its suite name;
that annotation does not affect ordering and is omitted.) -/
def allTestcases (rs : Results) : List CaseData :=
  rs.flatMap (fun p =>
    match p.2 with
    | none => []
    | some sd => sd.testcases)

/-- Descending-by-time comparison used as the sort relation: `a` may come
before `b` when `b.time ≤ a.time`. -/
def timeGE (a b : CaseData) : Prop := b.time ≤ a.time

instance : DecidableRel timeGE := fun a b => inferInstanceAs (Decidable (b.time ≤ a.time))

instance : IsTotal CaseData timeGE := ⟨fun a b => le_total b.time a.time⟩

instance : IsTrans CaseData timeGE := ⟨fun _ _ _ h1 h2 => le_trans h2 h1⟩

/-- `sorted(all_testcases, key=lambda x: x.get('time', 0), reverse=True)`
(test_analyzer.py line 170).  Python's sorted is a stable sort; with
reverse=True equal-key elements keep their original relative order.  It is
modelled by insertion sort under `timeGE`, which is extensionally equal to
every stable descending-by-time sort. -/
def sortByTimeDesc (cs : List CaseData) : List CaseData :=
  List.insertionSort timeGE cs

/-- `sorted(...)[:5]`: the slowest-tests selection of
generate_summary_report (test_analyzer.py line 170). -/
def slowestTests (cs : List CaseData) : List CaseData :=
  (sortByTimeDesc cs).take 5

/-- Slowest tests computed from a results mapping, as in the source. -/
def slowestOfResults (rs : Results) : List CaseData :=
  slowestTests (allTestcases rs)

/-- A JSON value as read from the health endpoint body. -/
inductive JVal : Type where
  | jstr : String → JVal
  | jbool : Bool → JVal
  | jnum : ℚ → JVal
  | jnull : JVal
deriving DecidableEq, Repr

/-- Python truthiness of a JSON value. -/
def JVal.truthy : JVal → Bool
  | .jstr s => !(s == "")
  | .jbool b => b
  | .jnum q => !(q == 0)
  | .jnull => false

/-- Python truthiness of `dict.get(key)`: absent keys give None, which is
falsy. -/
def truthyOpt : Option JVal → Bool
  | some v => v.truthy
  | none => false

/-- A health-endpoint response: HTTP status code and parsed JSON body. -/
structure HealthResp : Type where
  statusCode : Int
  body : List (String × JVal)
deriving DecidableEq, Repr

/-- `health_data.get(key)`. -/
def jget (b : List (String × JVal)) (k : String) : Option JVal :=
  b.lookup k

/-- Readiness test of TestRunner.start_test_container (run_tests.py lines
202-204): status code 200, body status equal to the string healthy, and a
truthy model_loaded field. -/
def runTestsResponseReady (r : HealthResp) : Bool :=
  (r.statusCode == 200)
    && decide (jget r.body "status" = some (JVal.jstr "healthy"))
    && truthyOpt (jget r.body "model_loaded")

/-- Readiness test of the docker_container fixture (tests/conftest.py line
171): any status-200 response counts, with no look at the body. -/
def conftestResponseReady (r : HealthResp) : Bool :=
  r.statusCode == 200

/-- One polling attempt: `none` is a requests exception (the attempt is
swallowed and polling continues). -/
def readinessAttemptReady : Option HealthResp → Bool
  | some r => runTestsResponseReady r
  | none => false

/-- The 30-attempt readiness loop of start_test_container (run_tests.py
lines 199-212): app_ready becomes true exactly when some of the first 30
attempts yields a ready response.  Attempts beyond the provided list are
further exceptions. -/
def readinessLoop (attempts : List (Option HealthResp)) : Bool :=
  (attempts.take 30).any readinessAttemptReady

/-- The 30-attempt health loop of the conftest docker_container fixture
(tests/conftest.py lines 167-180). -/
def conftestLoop (attempts : List (Option HealthResp)) : Bool :=
  (attempts.take 30).any (fun a =>
    match a with
    | some r => conftestResponseReady r
    | none => false)

/-- Status of one entry of the TestRunner.test_results map. -/
inductive RunStatus : Type where
  | not_run
  | passed
  | failed
  | error
deriving DecidableEq, Repr

/-- The TestRunner.test_results map (run_tests.py lines 73-79), restricted
to the status fields the claims are about; durations, timestamps and
captured output are out of scope. -/
structure RunnerState : Type where
  unit : RunStatus
  integration : RunStatus
  api : RunStatus
  docker : RunStatus
  overall : RunStatus
deriving DecidableEq, Repr

/-- The state installed by TestRunner.__init__: every entry not_run. -/
def initialState : RunnerState :=
  { unit := .not_run, integration := .not_run, api := .not_run
    docker := .not_run, overall := .not_run }

/-- External-world outcomes one orchestrator run can observe: whether
Docker setup succeeds, whether the image build succeeds, whether the
container reaches running state within its timeout, the health-poll
responses, and each suite subprocess outcome (`none` is an exception while
launching it, `some rc` an exit code). -/
structure Env : Type where
  setupOk : Bool
  buildOk : Bool
  containerRunning : Bool
  healthAttempts : List (Option HealthResp)
  unitRun : Option Int
  integrationRun : Option Int
  apiRun : Option Int
  dockerRun : Option Int
deriving DecidableEq, Repr

/-- TestRunner.start_test_container succeeds when the container reaches
running state and the readiness loop sees a ready response (run_tests.py
lines 155-220). -/
def startContainerOk (env : Env) : Bool :=
  env.containerRunning && readinessLoop env.healthAttempts

/-- Category status recorded by a run_X_tests call (run_tests.py lines
277-292): exit code 0 gives passed, a nonzero exit code gives failed, an
exception while running gives error. -/
def suiteStatusOf : Option Int → RunStatus
  | none => .error
  | some rc => if rc = 0 then .passed else .failed

/-- Boolean result of a run_X_tests call: True exactly on exit code 0. -/
def suiteOk : Option Int → Bool
  | none => false
  | some rc => rc == 0

/-- Externally visible orchestration steps. -/
inductive Ev : Type where
  | setupDocker
  | buildImage
  | startContainer
  | runUnit
  | runIntegration
  | runApi
  | runDocker
  | cleanupResources
deriving DecidableEq, Repr

/-- TestRunner.run_all_tests (run_tests.py lines 545-588): the three setup
steps short-circuit with a bare `return False`, leaving the results map
untouched; when setup succeeds all four suites run unconditionally and the
overall entry is set from the conjunction of their boolean results.
Returned: the boolean result, the results map, and the step trace. -/
def runAllTests (env : Env) : Bool × RunnerState × List Ev :=
  if !env.setupOk then
    (false, initialState, [Ev.setupDocker])
  else if !env.buildOk then
    (false, initialState, [Ev.setupDocker, Ev.buildImage])
  else if !startContainerOk env then
    (false, initialState, [Ev.setupDocker, Ev.buildImage, Ev.startContainer])
  else
    let success := suiteOk env.unitRun && suiteOk env.integrationRun
      && suiteOk env.apiRun && suiteOk env.dockerRun
    (success,
      { unit := suiteStatusOf env.unitRun
        integration := suiteStatusOf env.integrationRun
        api := suiteStatusOf env.apiRun
        docker := suiteStatusOf env.dockerRun
        overall := if success then .passed else .failed },
      [Ev.setupDocker, Ev.buildImage, Ev.startContainer, Ev.runUnit,
        Ev.runIntegration, Ev.runApi, Ev.runDocker])

/-- The CLI mode selector. -/
inductive Mode : Type where
  | all
  | unit
  | integration
  | api
  | docker
deriving DecidableEq, Repr

/-- TestRunner.run_specific_tests (run_tests.py lines 590-625): unit mode
runs only the unit suite; the container modes perform the three setup steps
first (short-circuiting with a bare `return False`); the overall entry is
set at the end of every non-short-circuited path. -/
def runSpecificTests (mode : Mode) (env : Env) : Bool × RunnerState × List Ev :=
  match mode with
  | .unit =>
      ( suiteOk env.unitRun,
        { initialState with
            unit := suiteStatusOf env.unitRun
            overall := if suiteOk env.unitRun then .passed else .failed },
        [Ev.runUnit] )
  | .integration =>
      if !env.setupOk then (false, initialState, [Ev.setupDocker])
      else if !env.buildOk then (false, initialState, [Ev.setupDocker, Ev.buildImage])
      else if !startContainerOk env then
        (false, initialState, [Ev.setupDocker, Ev.buildImage, Ev.startContainer])
      else
        ( suiteOk env.integrationRun,
          { initialState with
              integration := suiteStatusOf env.integrationRun
              overall := if suiteOk env.integrationRun then .passed else .failed },
          [Ev.setupDocker, Ev.buildImage, Ev.startContainer, Ev.runIntegration] )
  | .api =>
      if !env.setupOk then (false, initialState, [Ev.setupDocker])
      else if !env.buildOk then (false, initialState, [Ev.setupDocker, Ev.buildImage])
      else if !startContainerOk env then
        (false, initialState, [Ev.setupDocker, Ev.buildImage, Ev.startContainer])
      else
        ( suiteOk env.apiRun,
          { initialState with
              api := suiteStatusOf env.apiRun
              overall := if suiteOk env.apiRun then .passed else .failed },
          [Ev.setupDocker, Ev.buildImage, Ev.startContainer, Ev.runApi] )
  | .docker =>
      if !env.setupOk then (false, initialState, [Ev.setupDocker])
      else if !env.buildOk then (false, initialState, [Ev.setupDocker, Ev.buildImage])
      else if !startContainerOk env then
        (false, initialState, [Ev.setupDocker, Ev.buildImage, Ev.startContainer])
      else
        ( suiteOk env.dockerRun,
          { initialState with
              docker := suiteStatusOf env.dockerRun
              overall := if suiteOk env.dockerRun then .passed else .failed },
          [Ev.setupDocker, Ev.buildImage, Ev.startContainer, Ev.runDocker] )
  | .all =>
      ( true, { initialState with overall := .passed }, [] )

/-- The main entry point of run_tests.py (lines 628-701): dispatch on mode,
then generate and save the report, exit with code 0 on success and 1
otherwise, with cleanup_resources invoked exactly once from the finally
block on every path.  Returned: exit code, final results map, step trace. -/
def mainRun (mode : Mode) (env : Env) : Int × RunnerState × List Ev :=
  let r := match mode with
    | .all => runAllTests env
    | m => runSpecificTests m env
  ((if r.1 then 0 else 1), r.2.1, r.2.2 ++ [Ev.cleanupResources])

/-- The five entries of the test_results map, in insertion order, as
iterated by TestRunner.generate_report. -/
def stateEntries (st : RunnerState) : List (String × RunStatus) :=
  [("unit", st.unit), ("integration", st.integration), ("api", st.api),
    ("docker", st.docker), ("overall", st.overall)]

/-- The failed_tests list of generate_report (run_tests.py lines 501-502):
names of entries whose status is failed; note the overall entry is scanned
too. -/
def failedEntries (st : RunnerState) : List String :=
  ((stateEntries st).filter (fun p => p.2 == RunStatus.failed)).map (fun p => p.1)

/-- The error_tests list of generate_report (run_tests.py lines 503-504). -/
def errorEntries (st : RunnerState) : List String :=
  ((stateEntries st).filter (fun p => p.2 == RunStatus.error)).map (fun p => p.1)

/-- The banner of generate_report (run_tests.py line 511): PASSED exactly
when both the failed and the error lists are empty. -/
def overallBanner (st : RunnerState) : String :=
  if (failedEntries st).isEmpty && (errorEntries st).isEmpty
  then "PASSED" else "FAILED"

/-- The per-suite consistency invariant of the spec's data model: counts
non-negative and failures+errors+skipped bounded by tests (vacuous for an
empty parse-error record). -/
def suiteConsistentB : Option SuiteData → Bool
  | none => true
  | some s =>
      decide (0 ≤ s.failures) && decide (0 ≤ s.errors)
        && decide (0 ≤ s.skipped)
        && decide (s.failures + s.errors + s.skipped ≤ s.tests)

/-- An inconsistent suite record: zero tests but one recorded failure. -/
def suiteInconsistent : SuiteData :=
  { name := "unit", tests := 0, failures := 1, errors := 0, skipped := 0
    time := 0, timestamp := "", hostname := "", testcases := [] }

/-- A results mapping whose aggregated pass count is negative. -/
def rsNeg : Results := [("unit", some suiteInconsistent)]

/-- A consistent results mapping: 5 tests with 1 failure. -/
def rsOk : Results :=
  [("unit", some { name := "unit", tests := 5, failures := 1, errors := 0
                   skipped := 0, time := 0, timestamp := "", hostname := ""
                   testcases := [] })]

/-- A results mapping with one parse-error (empty) record: all totals 0. -/
def rsZero : Results := [("unit", none)]

/-- A testcase element with both a failure child and a skipped child. -/
def tcWithFailure : XElem :=
  .mk "testcase" [("classname", "C"), ("name", "n"), ("time", "0.5")] none
    [.mk "failure" [] (some "boom") [], .mk "skipped" [] none []]

/-- A document with a childless nested testsuite carrying tests 7, inside a
root carrying tests 99. -/
def doc4 : XElem :=
  .mk "testsuites" [("tests", "99")] none
    [.mk "testsuite" [("tests", "7")] none []]

/-- A 200 response reporting healthy but with the model not loaded. -/
def respNotLoaded : HealthResp :=
  { statusCode := 200
    body := [("status", JVal.jstr "healthy"), ("model_loaded", JVal.jbool false)] }

/-- A 200 response reporting healthy with the model loaded. -/
def respLoaded : HealthResp :=
  { statusCode := 200
    body := [("status", JVal.jstr "healthy"), ("model_loaded", JVal.jbool true)] }

/-- An environment in which Docker setup and build succeed and the
container runs, but no health poll ever returns a ready response. -/
def envNotReady : Env :=
  { setupOk := true, buildOk := true, containerRunning := true
    healthAttempts := [], unitRun := some 0, integrationRun := some 0
    apiRun := some 0, dockerRun := some 0 }

/-- An environment in which Docker setup itself fails. -/
def envSetupFail : Env :=
  { setupOk := false, buildOk := true, containerRunning := true
    healthAttempts := [some respLoaded], unitRun := some 0
    integrationRun := some 0, apiRun := some 0, dockerRun := some 0 }

/-- An environment in which everything succeeds. -/
def envAllPass : Env :=
  { setupOk := true, buildOk := true, containerRunning := true
    healthAttempts := [some respLoaded], unitRun := some 0
    integrationRun := some 0, apiRun := some 0, dockerRun := some 0 }

/-- The three example cases of the spec, with times 0.1, 0.5 and 0.3. -/
def exCase1 : CaseData :=
  { classname := "C", name := "a", time := 1/10, status := .passed, detail := none }

def exCase2 : CaseData :=
  { classname := "C", name := "b", time := 5/10, status := .passed, detail := none }

def exCase3 : CaseData :=
  { classname := "C", name := "c", time := 3/10, status := .passed, detail := none }

/-- A bare-format document: the root is itself the testsuite, no numeric
attributes anywhere, one testcase without a time attribute. -/
def docBare : XElem :=
  .mk "testsuite" [] none [.mk "testcase" [("name", "t1")] none []]

/-- A partially attributed document: tests and time are present on the
bare testsuite root, while failures, errors and skipped are absent, and
the single testcase lacks its time attribute. -/
def docPartial : XElem :=
  .mk "testsuite" [("tests", "5"), ("time", "2")] none
    [.mk "testcase" [("name", "t1")] none []]

/-- C3: every testcase element is assigned exactly one status, chosen by
the first matching child marker in the priority order failure, error,
skipped, and defaulting to passed when none is present; a failure child
forces failed regardless of any other children, and the parsed case record
carries exactly this status. -/
theorem c3_status_priority (tc : XElem) :
    (∀ f, tc.findChild "failure" = some f → (caseStatus tc).1 = Status.failed) ∧
    (tc.findChild "failure" = none →
      ∀ er, tc.findChild "error" = some er → (caseStatus tc).1 = Status.error) ∧
    (tc.findChild "failure" = none → tc.findChild "error" = none →
      ∀ sk, tc.findChild "skipped" = some sk → (caseStatus tc).1 = Status.skipped) ∧
    (tc.findChild "failure" = none → tc.findChild "error" = none →
      tc.findChild "skipped" = none → (caseStatus tc).1 = Status.passed) ∧
    (∀ cd, parseTestcase tc = some cd → cd.status = (caseStatus tc).1) := by
  refine ⟨fun f hf => ?_, fun h1 er h2 => ?_, fun h1 h2 sk h3 => ?_,
    fun h1 h2 h3 => ?_, fun cd hcd => ?_⟩
  · simp [caseStatus, hf]
  · simp [caseStatus, h1, h2]
  · simp [caseStatus, h1, h2, h3]
  · simp [caseStatus, h1, h2, h3]
  · simp only [parseTestcase, Option.bind_eq_bind, Option.pure_def,
      Option.bind_eq_some, Option.some.injEq] at hcd
    obtain ⟨t, _, hcd⟩ := hcd
    subst hcd
    rfl

/-- C3 witness: a concrete testcase with both a failure child and a skipped
child is classified failed. -/
theorem c3_status_priority_witness :
    (caseStatus tcWithFailure).1 = Status.failed :=
  (c3_status_priority tcWithFailure).1
    (XElem.mk "failure" [] (some "boom") []) rfl

/-- C5 counterexample: the conftest docker_container fixture declares the
container ready on a response with status 200, body status healthy and
model_loaded false, while the orchestrator's readiness check rejects it. -/
theorem c5_counterexample :
    conftestResponseReady respNotLoaded = true ∧
    conftestLoop [some respNotLoaded] = true ∧
    runTestsResponseReady respNotLoaded = false ∧
    readinessLoop [some respNotLoaded] = false := by
  decide

/-- C5 amended: in run_tests.py the container is declared ready exactly
when some of the first 30 polling attempts returns a response with status
code 200, body status healthy, and a truthy model_loaded; any response with
falsy or absent model_loaded never satisfies that check.  The conftest
fixture instead declares readiness on any status-200 response. -/
theorem c5_readiness (attempts : List (Option HealthResp)) (r : HealthResp) :
    (readinessLoop attempts = true ↔
      ∃ resp, some resp ∈ attempts.take 30 ∧ runTestsResponseReady resp = true) ∧
    (runTestsResponseReady r = true ↔
      r.statusCode = 200 ∧ jget r.body "status" = some (JVal.jstr "healthy") ∧
        truthyOpt (jget r.body "model_loaded") = true) ∧
    (truthyOpt (jget r.body "model_loaded") = false →
      runTestsResponseReady r = false) ∧
    (conftestResponseReady r = true ↔ r.statusCode = 200) := by
  refine ⟨?_, ?_, fun h => ?_, ?_⟩
  · simp only [readinessLoop, List.any_eq_true]
    constructor
    · rintro ⟨a, ha, hr⟩
      cases a with
      | none => simp [readinessAttemptReady] at hr
      | some resp => exact ⟨resp, ha, hr⟩
    · rintro ⟨resp, h1, h2⟩
      exact ⟨some resp, h1, h2⟩
  · simp [runTestsResponseReady, Bool.and_eq_true, decide_eq_true_eq,
      beq_iff_eq, and_assoc]
  · simp [runTestsResponseReady, h]
  · simp [conftestResponseReady, beq_iff_eq]

/-- C5 witness: the amended characterization applied to the concrete
not-loaded response. -/
theorem c5_readiness_witness :
    runTestsResponseReady respNotLoaded = false :=
  (c5_readiness [] respNotLoaded).2.2.1 (by decide)

/-- C7: a run with mode unit performs exactly the unit suite subprocess and
the final cleanup; it never performs Docker setup, image build, or
container start. -/
theorem c7_unit_mode_no_container (env : Env) :
    (mainRun Mode.unit env).2.2 = [Ev.runUnit, Ev.cleanupResources] ∧
    Ev.setupDocker ∉ (mainRun Mode.unit env).2.2 ∧
    Ev.buildImage ∉ (mainRun Mode.unit env).2.2 ∧
    Ev.startContainer ∉ (mainRun Mode.unit env).2.2 := by
  have h : (mainRun Mode.unit env).2.2 = [Ev.runUnit, Ev.cleanupResources] := rfl
  refine ⟨h, ?_, ?_, ?_⟩ <;> rw [h] <;> decide

/-- Unfolding aggregation over a cons cell. -/
theorem totalPassed_cons (p : String × Option SuiteData) (rest : Results) :
    totalPassed (p :: rest) =
      (suiteGetTests p.2 - suiteGetFailures p.2 - suiteGetErrors p.2
        - suiteGetSkipped p.2) + totalPassed rest := by
  simp only [totalPassed, totalTests, totalFailures, totalErrors, totalSkipped,
    List.map_cons, List.sum_cons]
  ring

/-- A consistent suite record contributes a non-negative pass count. -/
theorem consistent_entry_nonneg (s : Option SuiteData)
    (h : suiteConsistentB s = true) :
    0 ≤ suiteGetTests s - suiteGetFailures s - suiteGetErrors s
      - suiteGetSkipped s := by
  cases s with
  | none =>
    simp [suiteGetTests, suiteGetFailures, suiteGetErrors, suiteGetSkipped]
  | some sd =>
    simp only [suiteConsistentB, Bool.and_eq_true, decide_eq_true_eq] at h
    simp only [suiteGetTests, suiteGetFailures, suiteGetErrors, suiteGetSkipped]
    omega

/-- C1 counterexample: on a results mapping holding one inconsistent suite
record (0 tests, 1 failure) the aggregated pass count is the negative value
-1; it is not clamped to zero. -/
theorem c1_counterexample :
    totalPassed rsNeg = -1 ∧ totalPassed rsNeg < 0 := by
  decide

/-- C1 amended: the aggregated pass count is the plain integer subtraction
total - failures - errors - skipped, with no clamping and no inconsistency
flag; it is non-negative whenever every suite record satisfies the
invariant failures + errors + skipped between 0 and tests, and can go
negative otherwise. -/
theorem c1_pass_count (rs : Results) :
    totalPassed rs =
      totalTests rs - totalFailures rs - totalErrors rs - totalSkipped rs ∧
    ((∀ p ∈ rs, suiteConsistentB p.2 = true) → 0 ≤ totalPassed rs) := by
  refine ⟨rfl, fun h => ?_⟩
  induction rs with
  | nil => simp [totalPassed, totalTests, totalFailures, totalErrors, totalSkipped]
  | cons p rest ih =>
    have hp : 0 ≤ suiteGetTests p.2 - suiteGetFailures p.2
        - suiteGetErrors p.2 - suiteGetSkipped p.2 :=
      consistent_entry_nonneg p.2 (h p (by simp))
    have hrest : 0 ≤ totalPassed rest :=
      ih (fun q hq => h q (by simp [hq]))
    rw [totalPassed_cons]
    omega

/-- C1 witness: the amended statement applied to a consistent mapping with
5 tests and 1 failure. -/
theorem c1_pass_count_witness :
    totalPassed rsOk = 4 ∧ 0 ≤ totalPassed rsOk :=
  ⟨by decide, (c1_pass_count rsOk).2 (by decide)⟩

/-- C2 counterexample: on a results mapping whose only record is a
parse-error (empty) record the total is 0; the HTML report's passed
percentage then performs the division total_passed/total_tests and fails
(none models the ZeroDivisionError), instead of yielding 0; the text
summary omits the rate rather than yielding 0; only quick_status yields
the value 0. -/
theorem c2_counterexample :
    totalTests rsZero = 0 ∧
    htmlPassedRate rsZero = none ∧
    summaryOverallRate rsZero = none ∧
    quickSuccessRate [] = 0 := by
  refine ⟨by decide, by decide, by decide, ?_⟩
  simp [quickSuccessRate, quickTotals]

/-- C2 amended: when the aggregated total is positive, all three variants
compute passes divided by total times 100; when it is 0, quick_status
yields the value 0 without dividing, the text summary omits the rate
(produces no value), and the HTML report performs an unguarded division by
zero and fails. -/
theorem c2_success_rate (rs : Results) (files : List XElem) :
    (totalTests rs = 0 → summaryOverallRate rs = none ∧ htmlPassedRate rs = none) ∧
    (0 < totalTests rs →
      summaryOverallRate rs =
        some ((totalPassed rs : ℚ) / (totalTests rs : ℚ) * 100) ∧
      htmlPassedRate rs =
        some ((totalPassed rs : ℚ) / (totalTests rs : ℚ) * 100)) ∧
    ((quickTotals files).tests = 0 → quickSuccessRate files = 0) ∧
    (0 < (quickTotals files).tests →
      quickSuccessRate files =
        (quickPassed files : ℚ) / ((quickTotals files).tests : ℚ) * 100) := by
  refine ⟨fun h => ?_, fun h => ?_, fun h => ?_, fun h => ?_⟩
  · constructor
    · simp [summaryOverallRate, h]
    · simp [htmlPassedRate, pyDiv, h]
  · have hne : ((totalTests rs : ℚ)) ≠ 0 := by
      exact_mod_cast (by omega : totalTests rs ≠ 0)
    constructor
    · simp [summaryOverallRate, h]
    · simp [htmlPassedRate, pyDiv, hne]
  · simp [quickSuccessRate, h]
  · simp [quickSuccessRate, h]

/-- C2 witness: the amended statement applied to the zero-total mapping. -/
theorem c2_success_rate_witness :
    summaryOverallRate rsZero = none ∧ htmlPassedRate rsZero = none :=
  (c2_success_rate rsZero []).1 (by decide)

/-- C6 counterexample: in a mode-all run in which the container never
becomes ready, the recorded overall status remains not_run; it is not set
to failed. -/
theorem c6_counterexample :
    startContainerOk envNotReady = false ∧
    (mainRun Mode.all envNotReady).2.1.overall = RunStatus.not_run ∧
    RunStatus.not_run ≠ RunStatus.failed := by
  decide

/-- C6 amended: when Docker setup, the image build, or container readiness
fails in a mode-all run, no suite is executed and the whole results map
(all four categories and the overall entry) remains not_run; the failure is
reported through exit code 1, and cleanup is performed exactly once. -/
theorem c6_setup_failure (env : Env)
    (h : env.setupOk = false ∨ env.buildOk = false ∨
      startContainerOk env = false) :
    (mainRun Mode.all env).2.1 = initialState ∧
    (mainRun Mode.all env).2.1.overall = RunStatus.not_run ∧
    Ev.runUnit ∉ (mainRun Mode.all env).2.2 ∧
    Ev.runIntegration ∉ (mainRun Mode.all env).2.2 ∧
    Ev.runApi ∉ (mainRun Mode.all env).2.2 ∧
    Ev.runDocker ∉ (mainRun Mode.all env).2.2 ∧
    (mainRun Mode.all env).1 = 1 ∧
    (mainRun Mode.all env).2.2.count Ev.cleanupResources = 1 := by
  cases hs : env.setupOk with
  | false =>
    refine ⟨?_, ?_, ?_, ?_, ?_, ?_, ?_, ?_⟩ <;> simp [mainRun, runAllTests, hs, initialState]
  | true =>
    cases hb : env.buildOk with
    | false =>
      refine ⟨?_, ?_, ?_, ?_, ?_, ?_, ?_, ?_⟩ <;>
        simp [mainRun, runAllTests, hs, hb, initialState]
    | true =>
      cases hst : startContainerOk env with
      | false =>
        refine ⟨?_, ?_, ?_, ?_, ?_, ?_, ?_, ?_⟩ <;>
          simp [mainRun, runAllTests, hs, hb, hst, initialState]
      | true =>
        exfalso
        rcases h with h | h | h <;> simp_all

/-- Inserting an element into a list commutes with filtering by an exact
elapsed-time value: the inserted element lands in front of the matching
block (equal times never pass it), so stability of the insertion sort
follows. -/
theorem filter_orderedInsert_time (t : ℚ) (x : CaseData) (l : List CaseData) :
    (List.orderedInsert timeGE x l).filter (fun c => decide (c.time = t)) =
      if x.time = t then
        x :: l.filter (fun c => decide (c.time = t))
      else l.filter (fun c => decide (c.time = t)) := by
  induction l with
  | nil =>
    by_cases hx : x.time = t <;> simp [List.orderedInsert, hx]
  | cons b l ih =>
    by_cases hins : timeGE x b
    · rw [List.orderedInsert, if_pos hins]
      by_cases hx : x.time = t <;> simp [List.filter_cons, hx]
    · rw [List.orderedInsert, if_neg hins]
      by_cases hx : x.time = t
      · have hbt : ¬ (b.time = t) := by
          intro hbt
          exact hins (le_of_eq (hx ▸ hbt))
        simp [List.filter_cons, hbt, ih, hx]
      · simp [List.filter_cons, ih, hx]

/-- The sort of generate_summary_report is stable: filtering the sorted
list by any exact elapsed-time value returns the cases with that time in
their original encounter order. -/
theorem filter_sortByTimeDesc (t : ℚ) (cs : List CaseData) :
    (sortByTimeDesc cs).filter (fun c => decide (c.time = t)) =
      cs.filter (fun c => decide (c.time = t)) := by
  induction cs with
  | nil => rfl
  | cons x cs ih =>
    simp only [sortByTimeDesc, List.insertionSort] at ih ⊢
    rw [filter_orderedInsert_time, ih]
    by_cases hx : x.time = t <;> simp [List.filter_cons, hx]

/-- C8: the slowest-tests selection is the first five entries of a stable
sort of the cases by elapsed time descending: the selection is sorted
descending, cases with equal times keep their original encounter order,
and on the spec's example times 0.1, 0.5, 0.3 the sorted order is 0.5,
0.3, 0.1. -/
theorem c8_slowest_selection (cs : List CaseData) :
    slowestTests cs = (sortByTimeDesc cs).take 5 ∧
    List.Sorted timeGE (slowestTests cs) ∧
    (∀ t : ℚ, (sortByTimeDesc cs).filter (fun c => decide (c.time = t)) =
      cs.filter (fun c => decide (c.time = t))) ∧
    slowestTests [exCase1, exCase2, exCase3] = [exCase2, exCase3, exCase1] := by
  refine ⟨rfl, ?_, fun t => filter_sortByTimeDesc t cs, ?_⟩
  · exact List.Pairwise.sublist (List.take_sublist 5 _)
      (List.sorted_insertionSort timeGE cs)
  · norm_num [slowestTests, sortByTimeDesc, List.insertionSort,
      List.orderedInsert, timeGE, exCase1, exCase2, exCase3]

/-- Size bound for descendant lists, by strong induction on size: every
element listed among the descendants of a list of elements is strictly
smaller than the list. -/
theorem sizeOf_lt_of_mem_descendantsList (n : Nat) :
    ∀ (cs : List XElem), sizeOf cs ≤ n →
      ∀ e ∈ XElem.descendantsList cs, sizeOf e < sizeOf cs := by
  induction n with
  | zero =>
    intro cs hle e _
    cases cs <;> simp_all
  | succ n ih =>
    intro cs hle e he
    match cs with
    | [] => simp [XElem.descendantsList] at he
    | c :: cs' =>
      have hsz : sizeOf (c :: cs') = 1 + sizeOf c + sizeOf cs' := by simp
      simp only [XElem.descendantsList, List.mem_cons, List.mem_append] at he
      rcases he with (rfl | he) | he
      · omega
      · rcases c with ⟨t, a, x, ccs⟩
        have hc : sizeOf (XElem.mk t a x ccs) =
            1 + sizeOf t + sizeOf a + sizeOf x + sizeOf ccs := by simp
        have hle2 : sizeOf ccs ≤ n := by omega
        have hdesc : e ∈ XElem.descendantsList ccs := he
        have := ih ccs hle2 e hdesc
        omega
      · have hle2 : sizeOf cs' ≤ n := by omega
        have := ih cs' hle2 e he
        omega

/-- A proper descendant of an element is never that element itself. -/
theorem ne_of_mem_descendants (root e : XElem) (h : e ∈ root.descendants) :
    e ≠ root := by
  rcases root with ⟨t, a, x, cs⟩
  have h2 : sizeOf e < sizeOf cs :=
    sizeOf_lt_of_mem_descendantsList (sizeOf cs) cs le_rfl e h
  have hroot : sizeOf (XElem.mk t a x cs) =
      1 + sizeOf t + sizeOf a + sizeOf x + sizeOf cs := by simp
  intro heq
  rw [heq] at h2
  omega

/-- C4 counterexample: on a document whose nested testsuite element is
childless, quick_status reads the attributes from the document root (tests
99), not from the nested testsuite (tests 7); the analyzer reads them from
the nested testsuite. -/
theorem c4_counterexample :
    (findTestsuite doc4).isSome = true ∧
    quickParseFile doc4 =
      some { tests := 99, failures := 0, errors := 0, time := 0 } ∧
    (parse_junit_xml doc4).map SuiteData.tests = some 7 := by
  decide

/-- C4 amended: the analyzer reads the suite attributes from the first
nested testsuite element whenever one exists and from the document root
exactly when none exists; quick_status falls back to the document root both
when no nested testsuite exists and when the nested testsuite it finds has
no child elements (Python element truthiness under `or`). -/
theorem c4_suite_selection (root : XElem) :
    (analyzerSelectSuite root = root ↔ findTestsuite root = none) ∧
    (∀ ts, findTestsuite root = some ts → analyzerSelectSuite root = ts) ∧
    (quickSelectSuite root = root ↔
      (findTestsuite root = none ∨
        ∃ ts, findTestsuite root = some ts ∧ ts.children = [])) := by
  refine ⟨⟨?_, ?_⟩, ?_, ⟨?_, ?_⟩⟩
  · intro h
    cases hf : findTestsuite root with
    | none => rfl
    | some ts =>
      exfalso
      have hts : ts ∈ root.descendants := List.mem_of_find?_eq_some hf
      apply ne_of_mem_descendants root ts hts
      have : analyzerSelectSuite root = ts := by simp [analyzerSelectSuite, hf]
      rw [← this, h]
  · intro h
    simp [analyzerSelectSuite, h]
  · intro ts h
    simp [analyzerSelectSuite, h]
  · intro h
    cases hf : findTestsuite root with
    | none => exact Or.inl rfl
    | some ts =>
      by_cases hc : ts.children.isEmpty
      · exact Or.inr ⟨ts, rfl, List.isEmpty_iff.mp hc⟩
      · exfalso
        have hts : ts ∈ root.descendants := List.mem_of_find?_eq_some hf
        apply ne_of_mem_descendants root ts hts
        have : quickSelectSuite root = ts := by simp [quickSelectSuite, hf, hc]
        rw [← this, h]
  · rintro (h | ⟨ts, h, hc⟩)
    · simp [quickSelectSuite, h]
    · simp [quickSelectSuite, h, hc]

/-- C4 witness: on the concrete two-level document the analyzer selects the
nested testsuite element. -/
theorem c4_suite_selection_witness :
    analyzerSelectSuite doc4 = XElem.mk "testsuite" [("tests", "7")] none [] :=
  (c4_suite_selection doc4).2.1 (XElem.mk "testsuite" [("tests", "7")] none []) rfl

/-- Parsing a list of testcase elements none of which carries a time
attribute always succeeds, and every parsed case gets elapsed time 0. -/
theorem mapM_parseTestcase_no_time (l : List XElem)
    (h : ∀ tc ∈ l, tc.attrs.lookup "time" = none) :
    ∃ cds, l.mapM parseTestcase = some cds ∧ cds.length = l.length ∧
      ∀ cd ∈ cds, cd.time = 0 := by
  induction l with
  | nil => exact ⟨[], rfl, rfl, by simp⟩
  | cons tc l ih =>
    obtain ⟨cds, h1, h2, h3⟩ := ih (fun x hx => h x (by simp [hx]))
    have hlook : tc.attrs.lookup "time" = none := h tc (by simp)
    have htc : parseTestcase tc =
        some { classname := getStrAttrD tc "classname" ""
               name := getStrAttrD tc "name" ""
               time := 0
               status := (caseStatus tc).1
               detail := (caseStatus tc).2 } := by
      simp [parseTestcase, getFloatAttrD, hlook]
    refine ⟨{ classname := getStrAttrD tc "classname" ""
              name := getStrAttrD tc "name" ""
              time := 0
              status := (caseStatus tc).1
              detail := (caseStatus tc).2 } :: cds, ?_, by simp [h2], ?_⟩
    · rw [List.mapM_cons, htc, h1]
      rfl
    · intro cd hcd
      rcases List.mem_cons.mp hcd with rfl | hmem
      · rfl
      · exact h3 cd hmem

/-- The numeric-attribute getter fails only on a present attribute whose
string does not parse; an absent attribute always reads as 0. -/
theorem getIntAttrD_eq_none_iff (e : XElem) (k : String) :
    getIntAttrD e k = none ↔
      ∃ s, e.attrs.lookup k = some s ∧ pyInt s = none := by
  rcases h : e.attrs.lookup k with _ | s <;> simp [getIntAttrD, h]

/-- The float-attribute getter fails only on a present attribute whose
string does not parse; an absent attribute always reads as 0.0. -/
theorem getFloatAttrD_eq_none_iff (e : XElem) (k : String) :
    getFloatAttrD e k = none ↔
      ∃ s, e.attrs.lookup k = some s ∧ pyFloat s = none := by
  rcases h : e.attrs.lookup k with _ | s <;> simp [getFloatAttrD, h]

/-- Parsing a testcase element fails exactly when its time attribute read
does. -/
theorem parseTestcase_eq_none_iff (tc : XElem) :
    parseTestcase tc = none ↔ getFloatAttrD tc "time" = none := by
  cases h : getFloatAttrD tc "time" <;> simp [parseTestcase, h]

/-- A failing monadic map over Option exhibits a failing element. -/
theorem mapM_eq_none_exists {α β : Type} (f : α → Option β) :
    ∀ l : List α, l.mapM f = none → ∃ x ∈ l, f x = none := by
  intro l
  induction l with
  | nil =>
    intro h
    rw [List.mapM_nil] at h
    simp at h
  | cons a l ih =>
    intro h
    rw [List.mapM_cons] at h
    cases hf : f a with
    | none => exact ⟨a, List.mem_cons_self a l, hf⟩
    | some b =>
      rw [hf] at h
      cases hm : l.mapM f with
      | none =>
        obtain ⟨x, hx, hfx⟩ := ih hm
        exact ⟨x, List.mem_cons_of_mem a hx, hfx⟩
      | some bs =>
        rw [hm] at h
        simp at h

/-- Inversion of a successful analyzer parse: every field of the produced
record is the value delivered by the corresponding defaulted getter. -/
theorem parse_junit_xml_inv (root : XElem) (sd : SuiteData)
    (h : parse_junit_xml root = some sd) :
    getIntAttrD (analyzerSelectSuite root) "tests" = some sd.tests ∧
    getIntAttrD (analyzerSelectSuite root) "failures" = some sd.failures ∧
    getIntAttrD (analyzerSelectSuite root) "errors" = some sd.errors ∧
    getIntAttrD (analyzerSelectSuite root) "skipped" = some sd.skipped ∧
    getFloatAttrD (analyzerSelectSuite root) "time" = some sd.time ∧
    ((analyzerSelectSuite root).descendants.filter
      (fun e => e.tag == "testcase")).mapM parseTestcase = some sd.testcases := by
  simp only [parse_junit_xml, Option.bind_eq_bind, Option.pure_def,
    Option.bind_eq_some, Option.some.injEq] at h
  obtain ⟨tests, h1, failures, h2, errors, h3, skipped, h4, time, h5,
    tcs, h6, hrec⟩ := h
  subst hrec
  exact ⟨h1, h2, h3, h4, h5, h6⟩

/-- Inversion of a successful quick_status parse. -/
theorem quickParseFile_inv (root : XElem) (qc : QuickCounts)
    (h : quickParseFile root = some qc) :
    getIntAttrD (quickSelectSuite root) "tests" = some qc.tests ∧
    getIntAttrD (quickSelectSuite root) "failures" = some qc.failures ∧
    getIntAttrD (quickSelectSuite root) "errors" = some qc.errors ∧
    getFloatAttrD (quickSelectSuite root) "time" = some qc.time := by
  simp only [quickParseFile, Option.bind_eq_bind, Option.pure_def,
    Option.bind_eq_some, Option.some.injEq] at h
  obtain ⟨tests, h1, failures, h2, errors, h3, time, h4, hrec⟩ := h
  subst hrec
  exact ⟨h1, h2, h3, h4⟩

/-- C9: each numeric attribute defaults independently.  Whenever the
analyzer parse succeeds, every suite attribute that is absent has its
field equal to 0 (likewise for quick_status); a testcase element lacking
its time attribute always parses, with time 0; and a parse can fail only
because some present attribute string does not parse, never because of an
absent attribute. -/
theorem c9_missing_attrs_default (root : XElem) :
    (∀ sd, parse_junit_xml root = some sd →
      ((analyzerSelectSuite root).attrs.lookup "tests" = none → sd.tests = 0) ∧
      ((analyzerSelectSuite root).attrs.lookup "failures" = none →
        sd.failures = 0) ∧
      ((analyzerSelectSuite root).attrs.lookup "errors" = none →
        sd.errors = 0) ∧
      ((analyzerSelectSuite root).attrs.lookup "skipped" = none →
        sd.skipped = 0) ∧
      ((analyzerSelectSuite root).attrs.lookup "time" = none → sd.time = 0)) ∧
    (∀ tc, tc.attrs.lookup "time" = none →
      ∃ cd, parseTestcase tc = some cd ∧ cd.time = 0) ∧
    (parse_junit_xml root = none →
      (∃ s, ((analyzerSelectSuite root).attrs.lookup "tests" = some s ∨
             (analyzerSelectSuite root).attrs.lookup "failures" = some s ∨
             (analyzerSelectSuite root).attrs.lookup "errors" = some s ∨
             (analyzerSelectSuite root).attrs.lookup "skipped" = some s) ∧
        pyInt s = none) ∨
      (∃ s, (analyzerSelectSuite root).attrs.lookup "time" = some s ∧
        pyFloat s = none) ∨
      (∃ tc s, tc ∈ (analyzerSelectSuite root).descendants ∧
        tc.attrs.lookup "time" = some s ∧ pyFloat s = none)) ∧
    (∀ qc, quickParseFile root = some qc →
      ((quickSelectSuite root).attrs.lookup "tests" = none → qc.tests = 0) ∧
      ((quickSelectSuite root).attrs.lookup "failures" = none →
        qc.failures = 0) ∧
      ((quickSelectSuite root).attrs.lookup "errors" = none →
        qc.errors = 0) ∧
      ((quickSelectSuite root).attrs.lookup "time" = none → qc.time = 0)) ∧
    (quickParseFile root = none →
      (∃ s, ((quickSelectSuite root).attrs.lookup "tests" = some s ∨
             (quickSelectSuite root).attrs.lookup "failures" = some s ∨
             (quickSelectSuite root).attrs.lookup "errors" = some s) ∧
        pyInt s = none) ∨
      (∃ s, (quickSelectSuite root).attrs.lookup "time" = some s ∧
        pyFloat s = none)) := by
  refine ⟨?_, ?_, ?_, ?_, ?_⟩
  · intro sd hp
    obtain ⟨i1, i2, i3, i4, i5, _⟩ := parse_junit_xml_inv root sd hp
    refine ⟨fun ha => ?_, fun ha => ?_, fun ha => ?_, fun ha => ?_,
      fun ha => ?_⟩
    · simp only [getIntAttrD, ha, Option.some.injEq] at i1
      exact i1.symm
    · simp only [getIntAttrD, ha, Option.some.injEq] at i2
      exact i2.symm
    · simp only [getIntAttrD, ha, Option.some.injEq] at i3
      exact i3.symm
    · simp only [getIntAttrD, ha, Option.some.injEq] at i4
      exact i4.symm
    · simp only [getFloatAttrD, ha, Option.some.injEq] at i5
      exact i5.symm
  · intro tc ha
    refine ⟨{ classname := getStrAttrD tc "classname" ""
              name := getStrAttrD tc "name" ""
              time := 0
              status := (caseStatus tc).1
              detail := (caseStatus tc).2 }, ?_, rfl⟩
    simp [parseTestcase, getFloatAttrD, ha]
  · intro hnone
    cases e1 : getIntAttrD (analyzerSelectSuite root) "tests" with
    | none =>
      obtain ⟨s, hs, hp⟩ := (getIntAttrD_eq_none_iff _ _).mp e1
      exact Or.inl ⟨s, Or.inl hs, hp⟩
    | some v1 =>
    cases e2 : getIntAttrD (analyzerSelectSuite root) "failures" with
    | none =>
      obtain ⟨s, hs, hp⟩ := (getIntAttrD_eq_none_iff _ _).mp e2
      exact Or.inl ⟨s, Or.inr (Or.inl hs), hp⟩
    | some v2 =>
    cases e3 : getIntAttrD (analyzerSelectSuite root) "errors" with
    | none =>
      obtain ⟨s, hs, hp⟩ := (getIntAttrD_eq_none_iff _ _).mp e3
      exact Or.inl ⟨s, Or.inr (Or.inr (Or.inl hs)), hp⟩
    | some v3 =>
    cases e4 : getIntAttrD (analyzerSelectSuite root) "skipped" with
    | none =>
      obtain ⟨s, hs, hp⟩ := (getIntAttrD_eq_none_iff _ _).mp e4
      exact Or.inl ⟨s, Or.inr (Or.inr (Or.inr hs)), hp⟩
    | some v4 =>
    cases e5 : getFloatAttrD (analyzerSelectSuite root) "time" with
    | none =>
      exact Or.inr (Or.inl ((getFloatAttrD_eq_none_iff _ _).mp e5))
    | some v5 =>
    cases em : ((analyzerSelectSuite root).descendants.filter
        (fun e => e.tag == "testcase")).mapM parseTestcase with
    | none =>
      obtain ⟨tc, htc, hfc⟩ := mapM_eq_none_exists parseTestcase _ em
      have h0 : getFloatAttrD tc "time" = none :=
        (parseTestcase_eq_none_iff tc).mp hfc
      obtain ⟨s, hs, hp⟩ := (getFloatAttrD_eq_none_iff _ _).mp h0
      exact Or.inr (Or.inr ⟨tc, s, (List.mem_filter.mp htc).1, hs, hp⟩)
    | some tcs =>
      exfalso
      have hsome : parse_junit_xml root =
          some { name := getStrAttrD (analyzerSelectSuite root) "name" "Unknown"
                 tests := v1, failures := v2, errors := v3, skipped := v4
                 time := v5
                 timestamp := getStrAttrD (analyzerSelectSuite root) "timestamp" ""
                 hostname := getStrAttrD (analyzerSelectSuite root) "hostname" ""
                 testcases := tcs } := by
        rw [parse_junit_xml]
        rw [e1, e2, e3, e4, e5]
        simp only [Option.bind_eq_bind, Option.some_bind]
        rw [em]
        rfl
      rw [hsome] at hnone
      exact Option.noConfusion hnone
  · intro qc hp
    obtain ⟨i1, i2, i3, i4⟩ := quickParseFile_inv root qc hp
    refine ⟨fun ha => ?_, fun ha => ?_, fun ha => ?_, fun ha => ?_⟩
    · simp only [getIntAttrD, ha, Option.some.injEq] at i1
      exact i1.symm
    · simp only [getIntAttrD, ha, Option.some.injEq] at i2
      exact i2.symm
    · simp only [getIntAttrD, ha, Option.some.injEq] at i3
      exact i3.symm
    · simp only [getFloatAttrD, ha, Option.some.injEq] at i4
      exact i4.symm
  · intro hnone
    cases e1 : getIntAttrD (quickSelectSuite root) "tests" with
    | none =>
      obtain ⟨s, hs, hp⟩ := (getIntAttrD_eq_none_iff _ _).mp e1
      exact Or.inl ⟨s, Or.inl hs, hp⟩
    | some v1 =>
    cases e2 : getIntAttrD (quickSelectSuite root) "failures" with
    | none =>
      obtain ⟨s, hs, hp⟩ := (getIntAttrD_eq_none_iff _ _).mp e2
      exact Or.inl ⟨s, Or.inr (Or.inl hs), hp⟩
    | some v2 =>
    cases e3 : getIntAttrD (quickSelectSuite root) "errors" with
    | none =>
      obtain ⟨s, hs, hp⟩ := (getIntAttrD_eq_none_iff _ _).mp e3
      exact Or.inl ⟨s, Or.inr (Or.inr hs), hp⟩
    | some v3 =>
    cases e4 : getFloatAttrD (quickSelectSuite root) "time" with
    | none =>
      exact Or.inr ((getFloatAttrD_eq_none_iff _ _).mp e4)
    | some v4 =>
      exfalso
      have hsome : quickParseFile root =
          some { tests := v1, failures := v2, errors := v3, time := v4 } := by
        rw [quickParseFile]
        rw [e1, e2, e3, e4]
        simp only [Option.bind_eq_bind, Option.some_bind]
        rfl
      rw [hsome] at hnone
      exact Option.noConfusion hnone

/-- C9 witness: a document with tests and time present but failures,
errors and skipped absent, and a testcase without its time attribute,
parses successfully with the absent fields at 0. -/
theorem c9_missing_attrs_default_witness :
    (∃ sd, parse_junit_xml docPartial = some sd ∧ sd.failures = 0 ∧
      sd.errors = 0 ∧ sd.skipped = 0) ∧
    (∃ cd, parseTestcase (XElem.mk "testcase" [("name", "t1")] none []) =
      some cd ∧ cd.time = 0) := by
  have h := c9_missing_attrs_default docPartial
  have hsome : (parse_junit_xml docPartial).isSome = true := rfl
  refine ⟨?_, h.2.1 (XElem.mk "testcase" [("name", "t1")] none []) rfl⟩
  cases hp : parse_junit_xml docPartial with
  | none =>
    rw [hp] at hsome
    simp at hsome
  | some sd =>
    have hf := h.1 sd hp
    exact ⟨sd, rfl, hf.2.1 rfl, hf.2.2.1 rfl, hf.2.2.2.1 rfl⟩

/-- A suite whose boolean result is False is recorded failed or error. -/
theorem suiteStatusOf_not_ok (o : Option Int) (h : suiteOk o = false) :
    suiteStatusOf o = RunStatus.failed ∨ suiteStatusOf o = RunStatus.error := by
  cases o with
  | none => exact Or.inr rfl
  | some rc =>
    left
    have h2 : rc ≠ 0 := by
      simp only [suiteOk] at h
      simpa using h
    simp [suiteStatusOf, h2]

/-- The banner of generate_report, characterized over the four categories:
under the invariant that a failed or error overall entry is always
accompanied by a failed or error category, the banner reads PASSED exactly
when no category is failed and no category is error. -/
theorem banner_characterization (st : RunnerState)
    (h : (st.overall = RunStatus.failed ∨ st.overall = RunStatus.error) →
      (st.unit = RunStatus.failed ∨ st.unit = RunStatus.error ∨
       st.integration = RunStatus.failed ∨ st.integration = RunStatus.error ∨
       st.api = RunStatus.failed ∨ st.api = RunStatus.error ∨
       st.docker = RunStatus.failed ∨ st.docker = RunStatus.error)) :
    (overallBanner st = "PASSED" ↔
      (st.unit ≠ RunStatus.failed ∧ st.unit ≠ RunStatus.error ∧
       st.integration ≠ RunStatus.failed ∧ st.integration ≠ RunStatus.error ∧
       st.api ≠ RunStatus.failed ∧ st.api ≠ RunStatus.error ∧
       st.docker ≠ RunStatus.failed ∧ st.docker ≠ RunStatus.error)) := by
  rcases st with ⟨u, i, a, d, o⟩
  revert h
  cases u <;> cases i <;> cases a <;> cases d <;> cases o <;> decide

/-- In every reachable final state of the orchestrator, a failed overall
entry is accompanied by a failed or error category (an error overall entry
never occurs). -/
theorem mainRun_overall_consistent (mode : Mode) (env : Env) :
    ((mainRun mode env).2.1.overall = RunStatus.failed ∨
      (mainRun mode env).2.1.overall = RunStatus.error) →
    ((mainRun mode env).2.1.unit = RunStatus.failed ∨
     (mainRun mode env).2.1.unit = RunStatus.error ∨
     (mainRun mode env).2.1.integration = RunStatus.failed ∨
     (mainRun mode env).2.1.integration = RunStatus.error ∨
     (mainRun mode env).2.1.api = RunStatus.failed ∨
     (mainRun mode env).2.1.api = RunStatus.error ∨
     (mainRun mode env).2.1.docker = RunStatus.failed ∨
     (mainRun mode env).2.1.docker = RunStatus.error) := by
  cases mode with
  | all =>
    cases hs : env.setupOk with
    | false => intro h; simp [mainRun, runAllTests, hs, initialState] at h
    | true =>
      cases hb : env.buildOk with
      | false => intro h; simp [mainRun, runAllTests, hs, hb, initialState] at h
      | true =>
        cases hst : startContainerOk env with
        | false =>
          intro h; simp [mainRun, runAllTests, hs, hb, hst, initialState] at h
        | true =>
          have hstate : (mainRun Mode.all env).2.1 =
              { unit := suiteStatusOf env.unitRun
                integration := suiteStatusOf env.integrationRun
                api := suiteStatusOf env.apiRun
                docker := suiteStatusOf env.dockerRun
                overall :=
                  if suiteOk env.unitRun && suiteOk env.integrationRun
                    && suiteOk env.apiRun && suiteOk env.dockerRun
                  then RunStatus.passed else RunStatus.failed } := by
            simp [mainRun, runAllTests, hs, hb, hst]
          rw [hstate]
          intro h
          cases hall : (suiteOk env.unitRun && suiteOk env.integrationRun
              && suiteOk env.apiRun && suiteOk env.dockerRun) with
          | true => simp [hall] at h
          | false =>
            have hsome : suiteOk env.unitRun = false ∨
                suiteOk env.integrationRun = false ∨
                suiteOk env.apiRun = false ∨ suiteOk env.dockerRun = false := by
              revert hall
              cases suiteOk env.unitRun <;> cases suiteOk env.integrationRun <;>
                cases suiteOk env.apiRun <;> cases suiteOk env.dockerRun <;> simp
            rcases hsome with hf | hf | hf | hf
            · rcases suiteStatusOf_not_ok env.unitRun hf with h' | h'
              · exact Or.inl h'
              · exact Or.inr (Or.inl h')
            · rcases suiteStatusOf_not_ok env.integrationRun hf with h' | h'
              · exact Or.inr (Or.inr (Or.inl h'))
              · exact Or.inr (Or.inr (Or.inr (Or.inl h')))
            · rcases suiteStatusOf_not_ok env.apiRun hf with h' | h'
              · exact Or.inr (Or.inr (Or.inr (Or.inr (Or.inl h'))))
              · exact Or.inr (Or.inr (Or.inr (Or.inr (Or.inr (Or.inl h')))))
            · rcases suiteStatusOf_not_ok env.dockerRun hf with h' | h'
              · exact Or.inr (Or.inr (Or.inr (Or.inr (Or.inr (Or.inr (Or.inl h'))))))
              · exact Or.inr (Or.inr (Or.inr (Or.inr (Or.inr (Or.inr (Or.inr h'))))))
  | unit =>
    intro h
    cases hu : suiteOk env.unitRun with
    | true => simp [mainRun, runSpecificTests, hu] at h
    | false =>
      rcases suiteStatusOf_not_ok env.unitRun hu with h' | h'
      · exact Or.inl h'
      · exact Or.inr (Or.inl h')
  | integration =>
    cases hs : env.setupOk with
    | false => intro h; simp [mainRun, runSpecificTests, hs, initialState] at h
    | true =>
      cases hb : env.buildOk with
      | false => intro h; simp [mainRun, runSpecificTests, hs, hb, initialState] at h
      | true =>
        cases hst : startContainerOk env with
        | false =>
          intro h; simp [mainRun, runSpecificTests, hs, hb, hst, initialState] at h
        | true =>
          have hstate : (mainRun Mode.integration env).2.1 =
              { initialState with
                  integration := suiteStatusOf env.integrationRun
                  overall :=
                    if suiteOk env.integrationRun
                    then RunStatus.passed else RunStatus.failed } := by
            simp [mainRun, runSpecificTests, hs, hb, hst]
          rw [hstate]
          intro h
          cases hi : suiteOk env.integrationRun with
          | true => simp [hi] at h
          | false =>
            rcases suiteStatusOf_not_ok env.integrationRun hi with h' | h'
            · exact Or.inr (Or.inr (Or.inl h'))
            · exact Or.inr (Or.inr (Or.inr (Or.inl h')))
  | api =>
    cases hs : env.setupOk with
    | false => intro h; simp [mainRun, runSpecificTests, hs, initialState] at h
    | true =>
      cases hb : env.buildOk with
      | false => intro h; simp [mainRun, runSpecificTests, hs, hb, initialState] at h
      | true =>
        cases hst : startContainerOk env with
        | false =>
          intro h; simp [mainRun, runSpecificTests, hs, hb, hst, initialState] at h
        | true =>
          have hstate : (mainRun Mode.api env).2.1 =
              { initialState with
                  api := suiteStatusOf env.apiRun
                  overall :=
                    if suiteOk env.apiRun
                    then RunStatus.passed else RunStatus.failed } := by
            simp [mainRun, runSpecificTests, hs, hb, hst]
          rw [hstate]
          intro h
          cases ha : suiteOk env.apiRun with
          | true => simp [ha] at h
          | false =>
            rcases suiteStatusOf_not_ok env.apiRun ha with h' | h'
            · exact Or.inr (Or.inr (Or.inr (Or.inr (Or.inl h'))))
            · exact Or.inr (Or.inr (Or.inr (Or.inr (Or.inr (Or.inl h')))))
  | docker =>
    cases hs : env.setupOk with
    | false => intro h; simp [mainRun, runSpecificTests, hs, initialState] at h
    | true =>
      cases hb : env.buildOk with
      | false => intro h; simp [mainRun, runSpecificTests, hs, hb, initialState] at h
      | true =>
        cases hst : startContainerOk env with
        | false =>
          intro h; simp [mainRun, runSpecificTests, hs, hb, hst, initialState] at h
        | true =>
          have hstate : (mainRun Mode.docker env).2.1 =
              { initialState with
                  docker := suiteStatusOf env.dockerRun
                  overall :=
                    if suiteOk env.dockerRun
                    then RunStatus.passed else RunStatus.failed } := by
            simp [mainRun, runSpecificTests, hs, hb, hst]
          rw [hstate]
          intro h
          cases hd : suiteOk env.dockerRun with
          | true => simp [hd] at h
          | false =>
            rcases suiteStatusOf_not_ok env.dockerRun hd with h' | h'
            · exact Or.inr (Or.inr (Or.inr (Or.inr (Or.inr (Or.inr (Or.inl h'))))))
            · exact Or.inr (Or.inr (Or.inr (Or.inr (Or.inr (Or.inr (Or.inr h'))))))

/-- C10: in every state the orchestrator can reach, the report banner reads
PASSED exactly when no category is failed and no category is error; a
not_run category counts like passed, so after a setup failure (no suite
executed) the banner still reads PASSED. -/
theorem c10_overall_banner (mode : Mode) (env : Env) :
    (overallBanner (mainRun mode env).2.1 = "PASSED" ↔
      ((mainRun mode env).2.1.unit ≠ RunStatus.failed ∧
       (mainRun mode env).2.1.unit ≠ RunStatus.error ∧
       (mainRun mode env).2.1.integration ≠ RunStatus.failed ∧
       (mainRun mode env).2.1.integration ≠ RunStatus.error ∧
       (mainRun mode env).2.1.api ≠ RunStatus.failed ∧
       (mainRun mode env).2.1.api ≠ RunStatus.error ∧
       (mainRun mode env).2.1.docker ≠ RunStatus.failed ∧
       (mainRun mode env).2.1.docker ≠ RunStatus.error)) ∧
    overallBanner (mainRun Mode.all envSetupFail).2.1 = "PASSED" :=
  ⟨banner_characterization _ (mainRun_overall_consistent mode env), by decide⟩

/-- C6 witness: the amended statement applied to the concrete environment
whose health polls never succeed. -/
theorem c6_setup_failure_witness :
    (mainRun Mode.all envNotReady).2.1 = initialState ∧
    (mainRun Mode.all envNotReady).1 = 1 ∧
    (mainRun Mode.all envNotReady).2.2.count Ev.cleanupResources = 1 := by
  have h := c6_setup_failure envNotReady (Or.inr (Or.inr (by decide)))
  exact ⟨h.1, h.2.2.2.2.2.2.1, h.2.2.2.2.2.2.2⟩
